import Mathlib

/-!
Verification of the tendies extension tutorial
(`full_functionality/tendies-extension-tutorial.ipynb`).

The notebook wires a Faster R-CNN object-detection model into a
REST-serving pipeline through thin glue functions: a preprocessing
function turning an image bitstring into a batched uint8 tensor, a
postprocessing function naming the model's output tensors (with a
1-offset for `detection_classes`), a closure-based inference adapter,
and a client with label-map / visualization helpers.

This file shallowly embeds those glue functions.  Tensors are modelled
as a shape together with flattened integer data and a dtype tag; the
external image codecs (`tf.image.decode_png` / `decode_jpeg`) and the
object-detection / visualization library calls are modelled from the
spec at the granularity the glue code depends on (shapes, dtypes and
effect counts), since they are external collaborators.  Stateful code
(the Python dict iterated by the postprocessor, and the client's label
map file loads) is embedded with explicit state passing.
-/

set_option autoImplicit false

/-- Element dtypes that appear in the notebook's glue code. -/
inductive DType where
  | uint8
  | float32
deriving DecidableEq, Repr

/-- A tensor: a dtype tag, a shape, and the flattened element data.
Numeric element values are modelled as integers. -/
structure Tensor where
  dtype : DType
  shape : List Nat
  data : List Int
deriving DecidableEq, Repr

/-- An encoded image bitstring, characterised by the image it decodes
to: a height, a width, and the pixel value at each flattened index. -/
structure ImageBitstring where
  height : Nat
  width : Nat
  pixel : Nat → Int

/-- Modelled from the spec: `tf.image.decode_png` is the external image
codec, out of scope of the repository; a decoded pixel array has shape
height by width by the requested channel count and dtype uint8. -/
def decode_png (img : ImageBitstring) (channels : Nat) : Tensor :=
  { dtype := DType.uint8
    shape := [img.height, img.width, channels]
    data := (List.range (img.height * img.width * channels)).map img.pixel }

/-- Modelled from the spec: `tf.image.decode_jpeg`, the JPEG variant of
the external image codec, with the same shape contract as
`decode_png`. -/
def decode_jpeg (img : ImageBitstring) (channels : Nat) : Tensor :=
  { dtype := DType.uint8
    shape := [img.height, img.width, channels]
    data := (List.range (img.height * img.width * channels)).map img.pixel }

/-- `tf.expand_dims t axis`: insert a dimension of size 1 at `axis`. -/
def expand_dims (t : Tensor) (axis : Nat) : Tensor :=
  { t with shape := t.shape.take axis ++ 1 :: t.shape.drop axis }

/-- `tf.reshape`: succeeds exactly when the element count matches the
product of the new shape, otherwise raises (modelled as `none`). -/
def reshape (t : Tensor) (newShape : List Nat) : Option Tensor :=
  if t.data.length = newShape.prod then
    some { t with shape := newShape }
  else
    none

/-- `tf.to_float`: cast to a float tensor; the dtype tag changes, the
shape and the (integer-valued) data are preserved. -/
def to_float (t : Tensor) : Tensor :=
  { t with dtype := DType.float32 }

/-- Elementwise addition of a scalar to a tensor
(`tensor += LABEL_ID_OFFSET` broadcasts the scalar). -/
def tensorAddScalar (t : Tensor) (k : Int) : Tensor :=
  { t with data := t.data.map (fun v => v + k) }

namespace LayerInjector

/-- `LayerInjector.bitstring_to_uint8_tensor` from the notebook: reshape
the bitstring to a scalar (a no-op in this model), decode it as a PNG
with the requested channel count, and expand to a batch of one.  The
open-ended `*args` are accepted and unused, as in the source. -/
def bitstring_to_uint8_tensor {α : Type} (input_bytes : ImageBitstring)
    (channels : Nat) (args : List α) : Tensor :=
  let input_tensor := decode_png input_bytes channels
  let input_tensor := expand_dims input_tensor 0
  input_tensor

/-- Fixed convention from the source: output is not an image. -/
def OUTPUT_AS_IMAGE : Bool := false

/-- Fixed convention from the source: class labels are 1-indexed. -/
def LABEL_ID_OFFSET : Int := 1

/-- The full observable result of `object_detection_dict_to_tensor_dict`:
the final state of the input dict after the call, the tensors exposed
through `tf.identity` naming (in iteration order), and the returned
pair of output node names and image flag. -/
structure PostprocessResult where
  finalDict : List (String × Tensor)
  exposed : List (String × Tensor)
  output_node_names : List String
  output_as_image : Bool
deriving DecidableEq, Repr

/-- One iteration of the postprocessing loop.  The accumulator carries
the dict state, the exposed tensors so far, and the names so far; the
loop body rebinds its local `tensor` variable (never writing into the
dict), names the tensor, and appends the name. -/
def postStep
    (acc : List (String × Tensor) × List (String × Tensor) × List String)
    (p : String × Tensor) :
    List (String × Tensor) × List (String × Tensor) × List String :=
  let tensor := p.2
  let tensor :=
    if p.1 = "detection_classes" then tensorAddScalar tensor LABEL_ID_OFFSET
    else tensor
  (acc.1, acc.2.1 ++ [(p.1, tensor)], acc.2.2 ++ [p.1])

/-- `LayerInjector.object_detection_dict_to_tensor_dict` from the
notebook: iterate over the dict items, offset `detection_classes` by
`LABEL_ID_OFFSET`, expose each tensor under its name, collect the
names, and return them together with `OUTPUT_AS_IMAGE`.  The Python
dict is modelled as an association list in iteration order; its state
is threaded explicitly.  The open-ended `*args` are accepted and
unused, as in the source. -/
def object_detection_dict_to_tensor_dict {α : Type}
    (object_detection_tensor_dict : List (String × Tensor))
    (args : List α) : PostprocessResult :=
  let r := object_detection_tensor_dict.foldl postStep
    (object_detection_tensor_dict, [], [])
  { finalDict := r.1
    exposed := r.2.1
    output_node_names := r.2.2
    output_as_image := OUTPUT_AS_IMAGE }

/-- The value exposed for one dict entry: the tensor, offset when the
entry is named `detection_classes`. -/
def exposeEntry (p : String × Tensor) : String × Tensor :=
  (p.1,
    if p.1 = "detection_classes" then tensorAddScalar p.2 LABEL_ID_OFFSET
    else p.2)

theorem foldl_postStep (d : List (String × Tensor))
    (dict exp : List (String × Tensor)) (names : List String) :
    d.foldl postStep (dict, exp, names) =
      (dict, exp ++ d.map exposeEntry, names ++ d.map Prod.fst) := by
  induction d generalizing exp names with
  | nil => simp
  | cons p tl ih =>
      simp only [List.foldl_cons, postStep, List.map_cons]
      rw [ih]
      simp [exposeEntry]

theorem postprocess_exposed {α : Type} (d : List (String × Tensor))
    (args : List α) :
    (object_detection_dict_to_tensor_dict d args).exposed =
      d.map exposeEntry := by
  simp [object_detection_dict_to_tensor_dict, foldl_postStep]

theorem postprocess_names {α : Type} (d : List (String × Tensor))
    (args : List α) :
    (object_detection_dict_to_tensor_dict d args).output_node_names =
      d.map Prod.fst := by
  simp [object_detection_dict_to_tensor_dict, foldl_postStep]

theorem postprocess_finalDict {α : Type} (d : List (String × Tensor))
    (args : List α) :
    (object_detection_dict_to_tensor_dict d args).finalDict = d := by
  simp [object_detection_dict_to_tensor_dict, foldl_postStep]

end LayerInjector

/-- The external object-detection model, as seen by the inference
adapter: its three stages are arbitrary functions.  `preprocess`
returns the shape-normalised inputs together with the true image
shapes; `predict` and `postprocess` produce named tensor structures. -/
structure DetectionModel where
  preprocess : Tensor → Tensor × Tensor
  predict : Tensor → Tensor → List (String × Tensor)
  postprocess : List (String × Tensor) → Tensor → List (String × Tensor)

/-- `object_detection_inference` from the notebook: convert the uint8
inputs to float, run the model's preprocess, predict and postprocess
stages in order, and return the postprocessed tensors.  The closure's
captured `detection_model` is passed explicitly. -/
def object_detection_inference (detection_model : DetectionModel)
    (input_tensors : Tensor) : List (String × Tensor) :=
  let inputs := to_float input_tensors
  let pre := detection_model.preprocess inputs
  let preprocessed_inputs := pre.1
  let true_image_shapes := pre.2
  let output_tensors :=
    detection_model.predict preprocessed_inputs true_image_shapes
  let postprocessed_tensors :=
    detection_model.postprocess output_tensors true_image_shapes
  postprocessed_tensors

/-- Modelled from the spec: the content of a label map file — a static
mapping from integer class id to display label. -/
structure LabelMap where
  items : List (Nat × String)
deriving DecidableEq, Repr

/-- Category index: mapping from integer class id to display label. -/
structure CategoryIndex where
  entries : List (Nat × String)
deriving DecidableEq, Repr

namespace ObjectDetectionClient

/-- The configuration of a client instance: the label map path (and the
file content found there, part of the instance's fixed environment),
the expected image size, and the output location fields used by
`visualize`. -/
structure Client where
  label_path : String
  label_file : LabelMap
  image_size : Nat
  output_dir : String
  output_filename : String
  output_extension : String

/-- The observable effect state of a client instance: how many times
the label map file has been loaded, and which image files have been
saved. -/
structure ClientTrace where
  label_map_loads : Nat
  saved_images : List String
deriving DecidableEq, Repr

/-- Modelled from the spec: `label_map_util.load_labelmap` reads the
label map file (an external library call).  Each call performs one
file load, recorded in the trace. -/
def load_labelmap (c : Client) (tr : ClientTrace) : LabelMap × ClientTrace :=
  (c.label_file, { tr with label_map_loads := tr.label_map_loads + 1 })

/-- Modelled from the spec: `label_map_util.convert_label_map_to_categories`
keeps at most `max_num_classes` categories of the label map. -/
def convert_label_map_to_categories (label_map : LabelMap)
    (max_num_classes : Nat) (use_display_name : Bool) : List (Nat × String) :=
  label_map.items.take max_num_classes

/-- Modelled from the spec: `label_map_util.create_category_index` turns
the category list into the id-to-label mapping. -/
def create_category_index (categories : List (Nat × String)) : CategoryIndex :=
  { entries := categories }

/-- `get_category_index` from the notebook: load the label map from
`self.label_path` and build the category index from it.  Every call
re-loads the file; the load is recorded in the trace. -/
def get_category_index (c : Client) (tr : ClientTrace) :
    CategoryIndex × ClientTrace :=
  let r := load_labelmap c tr
  let label_map := r.1
  let categories :=
    convert_label_map_to_categories label_map 1 true
  let category_index := create_category_index categories
  (category_index, r.2)

/-- The client's `bitstring_to_uint8_tensor`: decode the bitstring as a
3-channel JPEG, then reshape to `[image_size, image_size, 3]`; the
reshape raises when the element counts differ (modelled as `none`). -/
def bitstring_to_uint8_tensor (c : Client) (input_bytes : ImageBitstring) :
    Option Tensor :=
  let input_tensor := decode_jpeg input_bytes 3
  reshape input_tensor [c.image_size, c.image_size, 3]

/-- `np.asarray(-, dtype=np.float32)`: dtype cast, values preserved in
this integer-valued model. -/
def asarray_float32 (t : Tensor) : Tensor :=
  { t with dtype := DType.float32 }

/-- `np.asarray(-, dtype=np.uint8)`: cast to uint8, wrapping values
into the byte range. -/
def asarray_uint8 (t : Tensor) : Tensor :=
  { t with dtype := DType.uint8, data := t.data.map (fun v => v % 256) }

/-- Modelled from the spec: the external drawing utility
`visualization_utils.visualize_boxes_and_labels_on_image_array`
overlays boxes and labels on the image array; the pixel-level effect is
out of scope and the model keeps the image array. -/
def visualize_boxes_and_labels_on_image_array (image : Tensor)
    (boxes : Tensor) (classes : Tensor) (scores : Tensor)
    (category_index : CategoryIndex) : Tensor :=
  image

/-- Modelled from the spec: `visualization_utils.save_image_array_as_png`
writes the image array to the given file; the write is recorded in the
trace. -/
def save_image_array_as_png (image : Tensor) (output_file : String)
    (tr : ClientTrace) : ClientTrace :=
  { tr with saved_images := tr.saved_images ++ [output_file] }

/-- `visualize` from the notebook: read the three detection arrays from
the response (a `KeyError` is modelled as `none`), decode the input
image (a failing reshape also yields `none`), build the category index
via `get_category_index` — re-loading the label map — overlay the
boxes, and save the result under an index-numbered file name. -/
def visualize (c : Client) (input_image : ImageBitstring)
    (response : List (String × Tensor)) (i : Nat) (tr : ClientTrace) :
    Option ClientTrace :=
  match response.lookup "detection_boxes",
        response.lookup "detection_classes",
        response.lookup "detection_scores" with
  | some detection_boxes, some detection_classes, some detection_scores =>
      match bitstring_to_uint8_tensor c input_image with
      | some image =>
          let r := get_category_index c tr
          let image := visualize_boxes_and_labels_on_image_array image
            (asarray_float32 detection_boxes)
            (asarray_uint8 detection_classes)
            (asarray_float32 detection_scores)
            r.1
          let output_file := c.output_dir ++ "/images/" ++
            c.output_filename ++ toString i ++ c.output_extension
          some (save_image_array_as_png image output_file r.2)
      | none => none
  | _, _, _ => none

end ObjectDetectionClient

section Claims

/-- Claim C1: for every input mapping that contains an entry named
"detection_classes", every value exposed by
`object_detection_dict_to_tensor_dict` under that name equals the
corresponding original value plus the fixed offset 1. -/
theorem C1_detection_classes_offset {α : Type} (d : List (String × Tensor))
    (args : List α) (i : Nat) (hi : i < d.length)
    (hname : (d[i]).1 = "detection_classes") :
    (LayerInjector.object_detection_dict_to_tensor_dict d args).exposed[i]? =
      some ("detection_classes",
        { (d[i]).2 with data := (d[i]).2.data.map (fun v => v + 1) }) := by
  rw [LayerInjector.postprocess_exposed, List.getElem?_map,
    List.getElem?_eq_getElem hi]
  simp [LayerInjector.exposeEntry, hname, tensorAddScalar,
    LayerInjector.LABEL_ID_OFFSET]

theorem C1_detection_classes_offset_witness :
    (LayerInjector.object_detection_dict_to_tensor_dict
        [("detection_classes", (⟨DType.float32, [2], [0, 4]⟩ : Tensor))]
        ([] : List Nat)).exposed[0]? =
      some ("detection_classes", ⟨DType.float32, [2], [1, 5]⟩) := by
  have h := C1_detection_classes_offset
    [("detection_classes", (⟨DType.float32, [2], [0, 4]⟩ : Tensor))]
    ([] : List Nat) 0 (by decide) (by decide)
  simpa using h

/-- Claim C2: for every input mapping, the list of output node names
returned by `object_detection_dict_to_tensor_dict` contains exactly
the keys of that mapping, in the mapping's iteration order, with no
duplicates and no omissions.  The dict invariant (distinct keys) is
the hypothesis. -/
theorem C2_output_node_names_exact {α : Type} (d : List (String × Tensor))
    (args : List α) (hnodup : (d.map Prod.fst).Nodup) :
    (LayerInjector.object_detection_dict_to_tensor_dict
        d args).output_node_names = d.map Prod.fst ∧
    (LayerInjector.object_detection_dict_to_tensor_dict
        d args).output_node_names.Nodup := by
  refine ⟨LayerInjector.postprocess_names d args, ?_⟩
  rw [LayerInjector.postprocess_names]
  exact hnodup

theorem C2_output_node_names_exact_witness :
    (LayerInjector.object_detection_dict_to_tensor_dict
        [("num_detections", (⟨DType.float32, [1], [3]⟩ : Tensor)),
         ("detection_boxes", ⟨DType.float32, [4], [0, 0, 1, 1]⟩)]
        ([] : List Nat)).output_node_names =
      ["num_detections", "detection_boxes"] ∧
    (LayerInjector.object_detection_dict_to_tensor_dict
        [("num_detections", (⟨DType.float32, [1], [3]⟩ : Tensor)),
         ("detection_boxes", ⟨DType.float32, [4], [0, 0, 1, 1]⟩)]
        ([] : List Nat)).output_node_names.Nodup := by
  have h := C2_output_node_names_exact
    [("num_detections", (⟨DType.float32, [1], [3]⟩ : Tensor)),
     ("detection_boxes", ⟨DType.float32, [4], [0, 0, 1, 1]⟩)]
    ([] : List Nat) (by decide)
  simpa using h

/-- Claim C3: for every valid image bitstring and channel count, the
preprocessing function `bitstring_to_uint8_tensor` returns a batch-of-
one tensor whose rank is the decoded image's rank plus one (a
prepended batch dimension) and whose channel count is the requested
one; in particular, for a 3-channel PNG bitstring of height H and
width W it returns a uint8 tensor of shape [1, H, W, 3] (the third
conjunct at `channels = 3`). -/
theorem C3_preprocess_batches {α : Type} (input_bytes : ImageBitstring)
    (channels : Nat) (args : List α) :
    (LayerInjector.bitstring_to_uint8_tensor input_bytes channels args).shape =
      1 :: (decode_png input_bytes channels).shape ∧
    (LayerInjector.bitstring_to_uint8_tensor
        input_bytes channels args).shape.length =
      (decode_png input_bytes channels).shape.length + 1 ∧
    (LayerInjector.bitstring_to_uint8_tensor input_bytes channels args).shape =
      [1, input_bytes.height, input_bytes.width, channels] ∧
    (LayerInjector.bitstring_to_uint8_tensor input_bytes channels args).dtype =
      DType.uint8 :=
  ⟨rfl, rfl, rfl, rfl⟩

/-- Claim C4: for every input mapping, the boolean output-as-image flag
returned by `object_detection_dict_to_tensor_dict` is false. -/
theorem C4_output_as_image_false {α : Type} (d : List (String × Tensor))
    (args : List α) :
    (LayerInjector.object_detection_dict_to_tensor_dict
        d args).output_as_image = false :=
  rfl

/-- Claim C5: for every input tensor, `object_detection_inference`
applies the wrapped stages in order — uint8-to-float dtype
normalization, then the external model's preprocess, predict and
postprocess steps — and returns the resulting raw output structure
unchanged; the dtype normalization changes only the dtype tag. -/
theorem C5_inference_pipeline (detection_model : DetectionModel)
    (input_tensors : Tensor) :
    object_detection_inference detection_model input_tensors =
      detection_model.postprocess
        (detection_model.predict
          (detection_model.preprocess (to_float input_tensors)).1
          (detection_model.preprocess (to_float input_tensors)).2)
        (detection_model.preprocess (to_float input_tensors)).2 ∧
    (to_float input_tensors).dtype = DType.float32 ∧
    (to_float input_tensors).shape = input_tensors.shape ∧
    (to_float input_tensors).data = input_tensors.data :=
  ⟨rfl, rfl, rfl, rfl⟩

/-- Claim C7: for every input mapping and every entry whose name is not
"detection_classes", the value exposed by
`object_detection_dict_to_tensor_dict` under that name equals the
original value unchanged. -/
theorem C7_other_entries_unchanged {α : Type} (d : List (String × Tensor))
    (args : List α) (i : Nat) (hi : i < d.length)
    (hname : (d[i]).1 ≠ "detection_classes") :
    (LayerInjector.object_detection_dict_to_tensor_dict d args).exposed[i]? =
      some (d[i]) := by
  rw [LayerInjector.postprocess_exposed, List.getElem?_map,
    List.getElem?_eq_getElem hi]
  simp [LayerInjector.exposeEntry, hname]

theorem C7_other_entries_unchanged_witness :
    (LayerInjector.object_detection_dict_to_tensor_dict
        [("detection_scores", (⟨DType.float32, [2], [9, 7]⟩ : Tensor))]
        ([] : List Nat)).exposed[0]? =
      some ("detection_scores", ⟨DType.float32, [2], [9, 7]⟩) := by
  have h := C7_other_entries_unchanged
    [("detection_scores", (⟨DType.float32, [2], [9, 7]⟩ : Tensor))]
    ([] : List Nat) 0 (by decide) (by decide)
  simpa using h

/-- Claim C9: `object_detection_dict_to_tensor_dict` never mutates its
input mapping: the dict state after the call equals the input dict —
the 1-offset is applied only to the newly created exposed tensor,
never written back into the input structure. -/
theorem C9_no_input_mutation {α : Type} (d : List (String × Tensor))
    (args : List α) :
    (LayerInjector.object_detection_dict_to_tensor_dict d args).finalDict =
      d :=
  LayerInjector.postprocess_finalDict d args

/-- Claim C10: the results of both layer-injection functions are
independent of the open-ended extra arguments and deterministic: for
any two args lists (even of different types), the preprocessor returns
the same tensor and the postprocessor the same name list and flag. -/
theorem C10_args_independent {α β : Type} (input_bytes : ImageBitstring)
    (channels : Nat) (args1 : List α) (args2 : List β)
    (d : List (String × Tensor)) :
    LayerInjector.bitstring_to_uint8_tensor input_bytes channels args1 =
      LayerInjector.bitstring_to_uint8_tensor input_bytes channels args2 ∧
    (LayerInjector.object_detection_dict_to_tensor_dict
        d args1).output_node_names =
      (LayerInjector.object_detection_dict_to_tensor_dict
        d args2).output_node_names ∧
    (LayerInjector.object_detection_dict_to_tensor_dict
        d args1).output_as_image =
      (LayerInjector.object_detection_dict_to_tensor_dict
        d args2).output_as_image :=
  ⟨rfl, rfl, rfl⟩

end Claims

section ClaimsClient

/-- Claim C6, counterexample: a concrete client instance whose
`visualize` is called twice ends with the label map loaded twice — the
label map is not loaded at most once over the instance's lifetime, and
visualization calls re-load it rather than reusing a held mapping. -/
theorem C6_label_map_reloaded_counterexample :
    (((ObjectDetectionClient.visualize
        ⟨"labels.pbtxt", ⟨[(1, "object")]⟩, 2, "out", "img", ".png"⟩
        ⟨2, 2, fun _ => 0⟩
        [("detection_boxes", ⟨DType.float32, [1], [0]⟩),
         ("detection_classes", ⟨DType.float32, [1], [0]⟩),
         ("detection_scores", ⟨DType.float32, [1], [0]⟩)]
        0 ⟨0, []⟩).bind
      (ObjectDetectionClient.visualize
        ⟨"labels.pbtxt", ⟨[(1, "object")]⟩, 2, "out", "img", ".png"⟩
        ⟨2, 2, fun _ => 0⟩
        [("detection_boxes", ⟨DType.float32, [1], [0]⟩),
         ("detection_classes", ⟨DType.float32, [1], [0]⟩),
         ("detection_scores", ⟨DType.float32, [1], [0]⟩)]
        1)).map ObjectDetectionClient.ClientTrace.label_map_loads = some 2) ∧
    ¬ (2 : Nat) ≤ 1 := by
  constructor
  · rfl
  · decide

/-- Claim C6 as amended: the category index is rebuilt — and the label
map file re-loaded — on every successful visualization call; each call
increments the instance's label map load count by exactly one, so after
n calls the map has been loaded n times rather than once. -/
theorem C6_label_map_reloaded_per_call (c : ObjectDetectionClient.Client)
    (input_image : ImageBitstring) (response : List (String × Tensor))
    (i : Nat) (tr tr2 : ObjectDetectionClient.ClientTrace)
    (h : ObjectDetectionClient.visualize c input_image response i tr =
      some tr2) :
    tr2.label_map_loads = tr.label_map_loads + 1 := by
  unfold ObjectDetectionClient.visualize at h
  split at h
  · split at h
    · simp only [ObjectDetectionClient.get_category_index,
        ObjectDetectionClient.load_labelmap,
        ObjectDetectionClient.save_image_array_as_png,
        Option.some.injEq] at h
      rw [← h]
    · exact Option.noConfusion h
  · exact Option.noConfusion h

theorem C6_label_map_reloaded_per_call_witness :
    (⟨1, ["out/images/img0.png"]⟩ :
        ObjectDetectionClient.ClientTrace).label_map_loads =
      (⟨0, []⟩ : ObjectDetectionClient.ClientTrace).label_map_loads + 1 :=
  C6_label_map_reloaded_per_call
    ⟨"labels.pbtxt", ⟨[(1, "object")]⟩, 2, "out", "img", ".png"⟩
    ⟨2, 2, fun _ => 0⟩
    [("detection_boxes", ⟨DType.float32, [1], [0]⟩),
     ("detection_classes", ⟨DType.float32, [1], [0]⟩),
     ("detection_scores", ⟨DType.float32, [1], [0]⟩)]
    0 ⟨0, []⟩ ⟨1, ["out/images/img0.png"]⟩ (by rfl)

/-- Claim C8, counterexample: the client helper succeeds on a decoded
image that is not `image_size` by `image_size` — a 2 by 8 image with
a configured size of 4 has matching element count (2*8*3 = 4*4*3), so
the reshape succeeds although the image is not square of the
configured size. -/
theorem C8_nonsquare_success_counterexample :
    (ObjectDetectionClient.bitstring_to_uint8_tensor
        ⟨"labels.pbtxt", ⟨[(1, "object")]⟩, 4, "out", "img", ".png"⟩
        ⟨2, 8, fun _ => 1⟩).isSome = true ∧
    ¬ ((2 : Nat) = 4 ∧ (8 : Nat) = 4) := by
  constructor
  · rfl
  · decide

/-- Claim C8 as amended: the client's `bitstring_to_uint8_tensor`
succeeds exactly when the decoded element count height*width*3 equals
image_size*image_size*3; in particular any input whose decoded element
count differs fails the final reshape, but a non-square 3-channel image
whose element count happens to match also succeeds. -/
theorem C8_success_iff_element_count (c : ObjectDetectionClient.Client)
    (input_bytes : ImageBitstring) :
    (ObjectDetectionClient.bitstring_to_uint8_tensor
        c input_bytes).isSome = true ↔
      input_bytes.height * input_bytes.width * 3 =
        c.image_size * c.image_size * 3 := by
  simp only [ObjectDetectionClient.bitstring_to_uint8_tensor, reshape,
    decode_jpeg, List.length_map, List.length_range, List.prod_cons,
    List.prod_nil, Nat.mul_one]
  rw [← Nat.mul_assoc]
  by_cases hc : input_bytes.height * input_bytes.width * 3 =
      c.image_size * c.image_size * 3
  · simp [hc]
  · simp [hc]

end ClaimsClient
